import Mathlib

/-!
Verification development for the DATC drone-authorization core.

The Python modules are shallowly embedded:
ideal arithmetic replaces IEEE floats (exact rationals for the purely
arithmetic modules, real numbers for the geodesic/trigonometric ones),
Python None for an absent numeric field is an Option, and a function that
raises ValueError is embedded as a function returning an Option String
holding the identifier of the first violated rule (none means success).
-/

namespace DATC

/-! ## Capability evaluator, from src/logic/capability.py -/

/-- Embedding of the Python idiom x or d used by compute_capability to
replace a missing (None) or zero field by its default. -/
def orDefault (x : Option ℚ) (d : ℚ) : ℚ :=
  match x with
  | none => d
  | some v => if v = 0 then d else v

/-- compute_capability from src/logic/capability.py.  Inputs model the raw
profile fields, where none stands for a Python None.  The result tuple is
(thrust_margin, thrust_state, safe_time, endurance_state, payload_ratio,
wind_risk) in the source order. -/
def compute_capability (motor_thrust motor_count takeoff_weight max_payload battery_wh cruise_power wind_limit : Option ℚ) :
    ℚ × String × ℚ × String × ℚ × String :=
  let motor_thrust := orDefault motor_thrust 1.0
  let motor_count := orDefault motor_count 4
  let takeoff_weight := orDefault takeoff_weight 2.5
  let max_payload := orDefault max_payload 0.3
  let battery_wh := orDefault battery_wh 50.0
  let cruise_power := orDefault cruise_power 200.0
  let wind_limit := orDefault wind_limit 10
  let thrust_margin := (motor_thrust * motor_count) / takeoff_weight
  let thrust_state :=
    if thrust_margin < 1.8 then "UNSAFE"
    else if thrust_margin ≤ 2.2 then "MARGINAL"
    else "SAFE"
  let max_time_min := (battery_wh / cruise_power) * 60
  let safe_time := max_time_min * 0.75
  let endurance_state :=
    if safe_time < 10 then "FAIL"
    else if safe_time ≤ 15 then "LIMITED"
    else "PASS"
  let payload_ratio := max_payload / takeoff_weight
  let wind_risk :=
    if wind_limit < 15 then "HIGH"
    else if wind_limit < 25 then "MEDIUM"
    else "LOW"
  (thrust_margin, thrust_state, safe_time, endurance_state, payload_ratio, wind_risk)

/-! Specification-side reimplementation of the capability rules, written
from the words of spec section 4.1 (reference rules), to be compared with
the embedding of the source. -/

/-- Spec rule: thrust margin below 1.8 is UNSAFE, up to 2.2 MARGINAL, else SAFE. -/
def spec_thrust_state (m : ℚ) : String :=
  if m < 1.8 then "UNSAFE" else if m ≤ 2.2 then "MARGINAL" else "SAFE"

/-- Spec rule: safe time below 10 is FAIL, up to 15 LIMITED, else PASS. -/
def spec_endurance_state (t : ℚ) : String :=
  if t < 10 then "FAIL" else if t ≤ 15 then "LIMITED" else "PASS"

/-- Spec rule: wind limit below 15 is HIGH risk, below 25 MEDIUM, else LOW. -/
def spec_wind_risk (w : ℚ) : String :=
  if w < 15 then "HIGH" else if w < 25 then "MEDIUM" else "LOW"

/-- Capability assessment as the spec states it: thrust_margin is
motor_thrust times motor_count over takeoff_weight, safe_time is 0.75
times (battery_wh over cruise_power) times 60, with the classification
rules of spec section 4.1, computed after replacing missing or zero fields
with the documented defaults. -/
def spec_capability (motor_thrust motor_count takeoff_weight max_payload battery_wh cruise_power wind_limit : Option ℚ) :
    ℚ × String × ℚ × String × ℚ × String :=
  let mt := orDefault motor_thrust 1.0
  let mc := orDefault motor_count 4
  let tw := orDefault takeoff_weight 2.5
  let mp := orDefault max_payload 0.3
  let bw := orDefault battery_wh 50.0
  let cp := orDefault cruise_power 200.0
  let wl := orDefault wind_limit 10
  let margin := mt * mc / tw
  let safe_time := 0.75 * ((bw / cp) * 60)
  (margin, spec_thrust_state margin, safe_time, spec_endurance_state safe_time,
    mp / tw, spec_wind_risk wl)

/-! ## Authorization assigner, from src/logic/authorization.py -/

/-- Embedding of the Python built-in round(x, 1): round to one decimal
place with ties going to the even last digit (banker's rounding).  On the
rational values this development applies it to, no tie can occur, so the
tie-breaking branch is inert. -/
def pythonRound1 (x : ℚ) : ℚ :=
  let y := 10 * x
  let n := ⌊y⌋
  let f := y - (n : ℚ)
  (if f < 1 / 2 then (n : ℚ)
   else if 1 / 2 < f then (n : ℚ) + 1
   else if Even n then (n : ℚ) else (n : ℚ) + 1) / 10

/-- auto_assign_authorization from src/logic/authorization.py.  The result
is (airspace, max_dist rounded to one decimal, max_alt).  The Python dict
lookup for max_alt is embedded as the equivalent conditional on the three
keys the dict holds. -/
def auto_assign_authorization (thrust_margin : ℚ) (thrust_state : String)
    (safe_time : ℚ) (endurance_state : String) ( payload_ratio : ℚ)
    (wind_risk : String) : String × ℚ × ℤ :=
  if thrust_state ≠ "SAFE" ∨ endurance_state ≠ "PASS" then
    ("RESTRICTED", 1.0, 60)
  else
    let airspace :=
      if wind_risk = "HIGH" then "RESTRICTED"
      else if wind_risk = "MEDIUM" then "CONTROLLED"
      else "OPEN"
    let max_dist : ℚ :=
      if safe_time < 10 then 1.0
      else if safe_time < 20 then 3.0
      else if safe_time < 40 then 8.0
      else 15.0
    let max_dist := if payload_ratio > 0.85 then max_dist * 0.5 else max_dist
    let max_dist := if thrust_margin > 1.8 then max_dist * 1.2 else max_dist
    let max_alt : ℤ :=
      if airspace = "RESTRICTED" then 60
      else if airspace = "CONTROLLED" then 90
      else 120
    (airspace, pythonRound1 max_dist, max_alt)

/-- Spec rule: airspace class chosen by wind risk (HIGH restricted,
MEDIUM controlled, otherwise open). -/
def spec_airspace (wind_risk : String) : String :=
  if wind_risk = "HIGH" then "RESTRICTED"
  else if wind_risk = "MEDIUM" then "CONTROLLED"
  else "OPEN"

/-- Spec rule: base max-distance tier by safe time. -/
def spec_tier (safe_time : ℚ) : ℚ :=
  if safe_time < 10 then 1.0
  else if safe_time < 20 then 3.0
  else if safe_time < 40 then 8.0
  else 15.0

/-- Spec rule: fixed max altitude per airspace class. -/
def spec_max_alt (airspace : String) : ℤ :=
  if airspace = "RESTRICTED" then 60
  else if airspace = "CONTROLLED" then 90
  else 120

/-! ## Conflict checker, from src/Dropdown.py -/

/-- An entry of the existing_flights list consumed by is_conflicting:
start and end times (absolute timestamps, embedded as rational seconds,
replacing ISO strings parsed by datetime.fromisoformat) and the decoded
waypoint path (the lat and lon fields consulted by the distance call). -/
structure ExistingFlight where
  start_time : ℚ
  end_time : ℚ
  path : List (ℚ × ℚ)

/-- is_conflicting from src/Dropdown.py.  The geodesic distance function
comes from the external geopy library, so it is passed as a parameter;
time strings are embedded as already-parsed rational timestamps.  The
Python early return True is the short-circuiting any. -/
def is_conflicting (dist : ℚ × ℚ → ℚ × ℚ → ℚ) (new_path : List (ℚ × ℚ))
    (new_start new_end : ℚ) (existing_flights : List ExistingFlight)
    (threshold : ℚ) : Bool :=
  existing_flights.any fun flight =>
    (decide (new_start < flight.end_time) && decide (new_end > flight.start_time)) &&
      (new_path.any fun wp1 =>
        flight.path.any fun wp2 => decide (dist wp1 wp2 < threshold))

/-! ## Geodesy and the flight-plan data model, from src/logic/flight_planner.py

The planner works with IEEE floats and transcendental functions; it is
embedded over the real numbers, so the definitions below are
noncomputable and theorems about them are settled by real analysis
rather than by evaluation. -/

/-- Python math.radians: degrees to radians. -/
noncomputable def radians (x : ℝ) : ℝ := x * Real.pi / 180

/-- Python math.atan2 with its full quadrant case analysis (signed zeros
of IEEE floats aside, which carry no information at the call sites of
this program since both arguments are square roots). -/
noncomputable def atan2 (y x : ℝ) : ℝ :=
  if 0 < x then Real.arctan (y / x)
  else if x < 0 then
    (if 0 ≤ y then Real.arctan (y / x) + Real.pi else Real.arctan (y / x) - Real.pi)
  else
    (if 0 < y then Real.pi / 2 else if y < 0 then -(Real.pi / 2) else 0)

/-- haversine_distance_meters from src/logic/flight_planner.py (the
module src/logic/flight_health.py holds a character-identical copy,
embedded once here).  Exact real trigonometry idealizes the IEEE floats
of the source: at degenerate inputs where an intermediate is an exact
zero of a trigonometric function (for example the cosine of a right
angle) the ideal value 0 and the rounded float (about 6.12e-17) differ,
so statements that hinge on such inputs are outside this embedding. -/
noncomputable def haversine_distance_meters (lat1 lon1 lat2 lon2 : ℝ) : ℝ :=
  let R : ℝ := 6371000
  let phi1 := radians lat1
  let phi2 := radians lat2
  let delta_phi := radians (lat2 - lat1)
  let delta_lambda := radians (lon2 - lon1)
  let a := Real.sin (delta_phi / 2) ^ 2 +
    Real.cos phi1 * Real.cos phi2 * Real.sin (delta_lambda / 2) ^ 2
  let c := 2 * atan2 (Real.sqrt a) (Real.sqrt (1 - a))
  R * c

/-- Waypoint from src/logic/flight_planner.py (flight_validation.py and
flight_health.py re-declare the same shape).  The fields are totally
typed: a Python None in place of a number is outside this embedding, and
the validator rules that only reject None fields are therefore inert
here (see validate_flight_plan). -/
structure Waypoint where
  latitude : ℝ
  longitude : ℝ
  altitude_meters : ℝ
  time_seconds : ℝ

instance : Inhabited Waypoint := ⟨⟨0, 0, 0, 0⟩⟩

/-- FlightPlan from src/logic/flight_planner.py.  Timestamps are
embedded as real seconds (datetime arithmetic in the source only ever
subtracts two timestamps or adds a timedelta). -/
structure FlightPlan where
  flight_id : String
  start_time : ℝ
  end_time : ℝ
  waypoints : List Waypoint
  drone_radius_meters : ℝ

/-- Module constant WAYPOINT_INTERVAL_SECONDS. -/
def WAYPOINT_INTERVAL_SECONDS : ℝ := 2.0

/-- Module constant CRUISE_ALTITUDE_METERS. -/
def CRUISE_ALTITUDE_METERS : ℝ := 30.0

/-- Module constant GROUND_ALTITUDE_METERS. -/
def GROUND_ALTITUDE_METERS : ℝ := 0.0

/-- Module constant MAX_CLIMB_RATE_MPS. -/
def MAX_CLIMB_RATE_MPS : ℝ := 3.0

/-- Module constant MAX_DESCENT_RATE_MPS. -/
def MAX_DESCENT_RATE_MPS : ℝ := 3.0

/-- The ideal_climb_time the generator computes from its module
constants. -/
noncomputable def idealClimbTime : ℝ :=
  (CRUISE_ALTITUDE_METERS - GROUND_ALTITUDE_METERS) / MAX_CLIMB_RATE_MPS

/-- The ideal_descent_time the generator computes from its module
constants. -/
noncomputable def idealDescentTime : ℝ :=
  (CRUISE_ALTITUDE_METERS - GROUND_ALTITUDE_METERS) / MAX_DESCENT_RATE_MPS

/-- compute_altitude_at_time from src/logic/flight_planner.py. -/
noncomputable def compute_altitude_at_time (elapsed_time climb_duration cruise_duration descent_duration peak_altitude : ℝ) : ℝ :=
  if elapsed_time ≤ climb_duration then
    (if climb_duration > 0 then (elapsed_time / climb_duration) * peak_altitude
     else peak_altitude)
  else if elapsed_time ≤ climb_duration + cruise_duration then
    peak_altitude
  else
    let time_into_descent := elapsed_time - climb_duration - cruise_duration
    if descent_duration > 0 then
      peak_altitude - (time_into_descent / descent_duration) * peak_altitude
    else
      GROUND_ALTITUDE_METERS

/-- generate_flight_plan from src/logic/flight_planner.py.  The Python
range loop building the waypoint list is the map over List.range; the
end time carries the deliberate one-microsecond buffer. -/
noncomputable def generate_flight_plan (start_lat start_lon end_lat end_lon : ℝ)
    (start_time : ℝ) (speed_mps : ℝ) : FlightPlan :=
  let horizontal_distance := haversine_distance_meters start_lat start_lon end_lat end_lon
  let minimum_flight_time := horizontal_distance / speed_mps
  let profile : ℝ × ℝ × ℝ × ℝ :=
    if minimum_flight_time ≥ idealClimbTime + idealDescentTime then
      (idealClimbTime, minimum_flight_time - idealClimbTime - idealDescentTime,
        idealDescentTime, CRUISE_ALTITUDE_METERS)
    else
      (minimum_flight_time / 2.0, 0.0, minimum_flight_time / 2.0,
        (minimum_flight_time / 2.0) * MAX_CLIMB_RATE_MPS)
  let climb_duration := profile.1
  let cruise_duration := profile.2.1
  let descent_duration := profile.2.2.1
  let peak_altitude := profile.2.2.2
  let total_duration := climb_duration + cruise_duration + descent_duration
  let num_segments0 : ℕ := ⌈total_duration / WAYPOINT_INTERVAL_SECONDS⌉₊
  let num_segments : ℕ := if num_segments0 < 1 then 1 else num_segments0
  let waypoints := (List.range (num_segments + 1)).map fun (i : ℕ) =>
    let t : ℝ := (i : ℝ) / (num_segments : ℝ)
    let elapsed_time := t * total_duration
    { latitude := start_lat + t * (end_lat - start_lat)
      longitude := start_lon + t * (end_lon - start_lon)
      altitude_meters := compute_altitude_at_time elapsed_time climb_duration
        cruise_duration descent_duration peak_altitude
      time_seconds := elapsed_time : Waypoint }
  { flight_id := "TEST-FLIGHT"
    start_time := start_time
    end_time := start_time + (total_duration + 1e-6)
    waypoints := waypoints
    drone_radius_meters := 1.0 }

/-! Proof-side characterizations of the generator's intermediate
quantities, each one the closed form of a let-bound variable of
generate_flight_plan; generate_flight_plan_eq below proves the
correspondence. -/

/-- The minimum_flight_time of the generator: haversine distance over
speed. -/
noncomputable def planMinTime (start_lat start_lon end_lat end_lon speed : ℝ) : ℝ :=
  haversine_distance_meters start_lat start_lon end_lat end_lon / speed

/-- The climb_duration the generator picks for a given
minimum_flight_time. -/
noncomputable def planClimb (T : ℝ) : ℝ :=
  if T ≥ idealClimbTime + idealDescentTime then idealClimbTime else T / 2.0

/-- The cruise_duration the generator picks. -/
noncomputable def planCruise (T : ℝ) : ℝ :=
  if T ≥ idealClimbTime + idealDescentTime then T - idealClimbTime - idealDescentTime
  else 0.0

/-- The descent_duration the generator picks. -/
noncomputable def planDescent (T : ℝ) : ℝ :=
  if T ≥ idealClimbTime + idealDescentTime then idealDescentTime else T / 2.0

/-- The peak_altitude the generator picks. -/
noncomputable def planPeak (T : ℝ) : ℝ :=
  if T ≥ idealClimbTime + idealDescentTime then CRUISE_ALTITUDE_METERS
  else (T / 2.0) * MAX_CLIMB_RATE_MPS

/-- The num_segments of the generator (the ceiling clamped below by 1). -/
noncomputable def planSegments (T : ℝ) : ℕ :=
  if (⌈T / WAYPOINT_INTERVAL_SECONDS⌉₊ : ℕ) < 1 then 1
  else ⌈T / WAYPOINT_INTERVAL_SECONDS⌉₊

/-- The waypoint the generator emits at loop index i. -/
noncomputable def genWaypoint (start_lat start_lon end_lat end_lon speed : ℝ) (i : ℕ) :
    Waypoint :=
  let T := planMinTime start_lat start_lon end_lat end_lon speed
  let n := planSegments T
  let t : ℝ := (i : ℝ) / (n : ℝ)
  { latitude := start_lat + t * (end_lat - start_lat)
    longitude := start_lon + t * (end_lon - start_lon)
    altitude_meters := compute_altitude_at_time (t * T) (planClimb T) (planCruise T)
      (planDescent T) (planPeak T)
    time_seconds := t * T }

/-! ## Flight-plan validator, from src/logic/flight_validation.py

The Python validator raises ValueError at the first violated rule; the
embedding returns some tag-of-the-first-violated-rule, or none on
success, with the checks chained in the exact source order.  The Rule
1.2 None-field checks of the source cannot fire in this embedding
because every field is totally typed, so they are omitted; all claims
about the validator here concern plans with no None fields. -/

/-- Configuration ValidationConfig with its source defaults. -/
structure ValidationConfig where
  max_altitude_meters : ℝ := 120.0
  min_drone_radius_meters : ℝ := 0.5
  max_drone_radius_meters : ℝ := 5.0
  min_time_delta_seconds : ℝ := 0.1
  max_flight_duration_seconds : ℝ := 3600.0
  max_advance_booking_days : ℝ := 30.0
  start_time_tolerance_seconds : ℝ := 5.0
  max_velocity_mps : Option ℝ := none
  max_climb_rate_mps : Option ℝ := none
  max_descent_rate_mps : Option ℝ := none
  max_acceleration_mps2 : Option ℝ := none
  max_mission_range_meters : Option ℝ := none

/-- The default ValidationConfig (Python ValidationConfig()). -/
def defaultValidationConfig : ValidationConfig := {}

/-- The consecutive waypoint pairs a Python loop over range(len(l) - 1)
inspects as (l[i], l[i + 1]). -/
def consecutivePairs {α : Type} : List α → List (α × α)
  | [] => []
  | [_] => []
  | a :: b :: rest => (a, b) :: consecutivePairs (b :: rest)

/-- Helper _horizontal_distance_meters from src/logic/flight_validation.py
(equirectangular approximation; the leading underscore of the source name
is dropped). -/
noncomputable def horizontal_distance_meters (wp1 wp2 : Waypoint) : ℝ :=
  let R : ℝ := 6371000.0
  let lat1 := radians wp1.latitude
  let lat2 := radians wp2.latitude
  let dlat := lat2 - lat1
  let dlon := radians (wp2.longitude - wp1.longitude)
  let x := dlon * Real.cos ((lat1 + lat2) / 2.0)
  let y := dlat
  Real.sqrt (x * x + y * y) * R

/-- Helper _calculate_total_path_length from src/logic/flight_validation.py. -/
noncomputable def calculate_total_path_length (waypoints : List Waypoint) : ℝ :=
  ((consecutivePairs waypoints).map fun p => horizontal_distance_meters p.1 p.2).sum

/-- Rule 1.1: at least two waypoints. -/
noncomputable def checkWaypointCount (plan : FlightPlan) : Option String :=
  if plan.waypoints.length < 2 then some "Rule 1.1" else none

/-- Rule 7.1: non-empty flight id.  Python tests falsiness of the string
and then zero length of its strip; together these hold exactly when every
character is whitespace (including the empty string), which is the form
used here since String.trim does not reduce in the kernel. -/
noncomputable def checkFlightId (plan : FlightPlan) : Option String :=
  if plan.flight_id.data.all (fun c => c.isWhitespace) then some "Rule 7.1" else none

/-- Rules 2.1 and 2.2: coordinate bounds, scanned waypoint by waypoint,
latitude before longitude, as in the source loop. -/
noncomputable def checkCoordinates (plan : FlightPlan) : Option String :=
  plan.waypoints.findSome? fun wp =>
    if wp.latitude < -90.0 ∨ wp.latitude > 90.0 then some "Rule 2.1"
    else if wp.longitude < -180.0 ∨ wp.longitude > 180.0 then some "Rule 2.2"
    else none

/-- Rules 3.1 and 3.2: altitude bounds. -/
noncomputable def checkAltitudes (plan : FlightPlan) (config : ValidationConfig) : Option String :=
  plan.waypoints.findSome? fun wp =>
    if wp.altitude_meters < 0.0 then some "Rule 3.1"
    else if wp.altitude_meters > config.max_altitude_meters then some "Rule 3.2"
    else none

/-- Rules 6.1, 6.3, 6.2 in source order: drone radius positive, at least
the configured minimum, at most the configured maximum. -/
noncomputable def checkRadius (plan : FlightPlan) (config : ValidationConfig) : Option String :=
  if plan.drone_radius_meters ≤ 0.0 then some "Rule 6.1"
  else if plan.drone_radius_meters < config.min_drone_radius_meters then some "Rule 6.3"
  else if plan.drone_radius_meters > config.max_drone_radius_meters then some "Rule 6.2"
  else none

/-- Rule 4.4: first waypoint at time zero (the source indexes
waypoints[0], reached only after the count check has passed, so the
default-valued head of an empty list is never consulted on that path). -/
noncomputable def checkFirstWaypointTime (plan : FlightPlan) : Option String :=
  if plan.waypoints.headI.time_seconds ≠ 0.0 then some "Rule 4.4" else none

/-- Rule 4.1: strictly increasing waypoint times. -/
noncomputable def checkTimeOrdering (plan : FlightPlan) : Option String :=
  (consecutivePairs plan.waypoints).findSome? fun p =>
    if p.1.time_seconds ≥ p.2.time_seconds then some "Rule 4.1" else none

/-- Rule 4.5: minimum time delta between consecutive waypoints. -/
noncomputable def checkTimeDelta (plan : FlightPlan) (config : ValidationConfig) : Option String :=
  (consecutivePairs plan.waypoints).findSome? fun p =>
    if p.2.time_seconds - p.1.time_seconds < config.min_time_delta_seconds then
      some "Rule 4.5"
    else none

/-- Rule 4.2: start time strictly before end time. -/
noncomputable def checkStartBeforeEnd (plan : FlightPlan) : Option String :=
  if plan.start_time ≥ plan.end_time then some "Rule 4.2" else none

/-- The final waypoint elapsed time the validator reads as waypoints[-1]
(reached only after the count check has passed). -/
noncomputable def finalWaypointTime (plan : FlightPlan) : ℝ :=
  (plan.waypoints.getLastD default).time_seconds

/-- Rule 4.3: final waypoint time within the authorization window, with
the one-microsecond epsilon of the source. -/
noncomputable def checkWindow (plan : FlightPlan) : Option String :=
  if finalWaypointTime plan > (plan.end_time - plan.start_time) + 1e-6 then
    some "Rule 4.3"
  else none

/-- Rule 9.1: start time not in the past beyond the configured tolerance. -/
noncomputable def checkFutureStart (plan : FlightPlan) (config : ValidationConfig)
    (current_time : ℝ) : Option String :=
  if plan.start_time - current_time < -config.start_time_tolerance_seconds then
    some "Rule 9.1"
  else none

/-- Rule 9.2: start time within the advance-booking horizon. -/
noncomputable def checkBookingHorizon (plan : FlightPlan) (config : ValidationConfig)
    (current_time : ℝ) : Option String :=
  if plan.start_time - current_time > config.max_advance_booking_days * 86400 then
    some "Rule 9.2"
  else none

/-- Rule 9.3: flight duration at most the configured maximum. -/
noncomputable def checkDuration (plan : FlightPlan) (config : ValidationConfig) : Option String :=
  if plan.end_time - plan.start_time > config.max_flight_duration_seconds then
    some "Rule 9.3"
  else none

/-- Rule 10.1: the window check the source repeats for clarity. -/
noncomputable def checkWindowAgain (plan : FlightPlan) : Option String :=
  if (plan.end_time - plan.start_time) + 1e-6 < finalWaypointTime plan then
    some "Rule 10.1"
  else none

/-- Rule 8.1: no two consecutive waypoints identical in all three
spatial coordinates. -/
noncomputable def checkDuplicates (plan : FlightPlan) : Option String :=
  (consecutivePairs plan.waypoints).findSome? fun p =>
    if p.1.latitude = p.2.latitude ∧ p.1.longitude = p.2.longitude ∧
        p.1.altitude_meters = p.2.altitude_meters then
      some "Rule 8.1"
    else none

/-- Rule 8.2 and its advanced max-range variant. -/
noncomputable def checkPathLength (plan : FlightPlan) (config : ValidationConfig) : Option String :=
  let total_path_length := calculate_total_path_length plan.waypoints
  if total_path_length ≤ 0.0 then some "Rule 8.2"
  else
    match config.max_mission_range_meters with
    | some m => if total_path_length > m then some "Rule 8.2A" else none
    | none => none

/-- Advanced Rule 5.1: per-segment horizontal velocity bound, run only
when max_velocity_mps is provided. -/
noncomputable def checkVelocity (plan : FlightPlan) (config : ValidationConfig) : Option String :=
  match config.max_velocity_mps with
  | none => none
  | some v =>
    (consecutivePairs plan.waypoints).findSome? fun p =>
      let distance := horizontal_distance_meters p.1 p.2
      let time_delta := p.2.time_seconds - p.1.time_seconds
      let velocity := distance / time_delta
      if velocity > v then some "Rule 5.1" else none

/-- Advanced Rule 3.3: the loop guarded by either vertical-rate config
field being present; its body only ever raises for a positive altitude
change against max_climb_rate_mps, exactly as in the source (the
descent-rate branch does not exist there). -/
noncomputable def checkVerticalRate (plan : FlightPlan) (config : ValidationConfig) : Option String :=
  if config.max_climb_rate_mps.isSome ∨ config.max_descent_rate_mps.isSome then
    (consecutivePairs plan.waypoints).findSome? fun p =>
      let altitude_change := p.2.altitude_meters - p.1.altitude_meters
      let time_delta := p.2.time_seconds - p.1.time_seconds
      let vertical_rate := altitude_change / time_delta
      if altitude_change > 0 then
        match config.max_climb_rate_mps with
        | some c => if vertical_rate > c then some "Rule 3.3" else none
        | none => none
      else none
  else none

/-- validate_flight_plan from src/logic/flight_validation.py: the
fail-fast chain of every rule in source order.  current_time is always
passed explicitly (the datetime.utcnow default of the source is ambient
input, not program logic). -/
noncomputable def validate_flight_plan (plan : FlightPlan) (config : ValidationConfig)
    (current_time : ℝ) : Option String :=
  checkWaypointCount plan <|> checkFlightId plan <|> checkCoordinates plan <|>
  checkAltitudes plan config <|> checkRadius plan config <|>
  checkFirstWaypointTime plan <|> checkTimeOrdering plan <|>
  checkTimeDelta plan config <|> checkStartBeforeEnd plan <|> checkWindow plan <|>
  checkFutureStart plan config current_time <|>
  checkBookingHorizon plan config current_time <|> checkDuration plan config <|>
  checkWindowAgain plan <|> checkDuplicates plan <|> checkPathLength plan config <|>
  checkVelocity plan config <|> checkVerticalRate plan config

/-! ## Flight-health monitor, from src/logic/flight_health.py -/

/-- TelemetryUpdate from src/logic/flight_health.py, timestamps again as
real seconds. -/
structure TelemetryUpdate where
  flight_id : String
  timestamp : ℝ
  latitude : ℝ
  longitude : ℝ
  altitude_meters : ℝ

/-- FlightHealthStatus enum. -/
inductive FlightHealthStatus where
  | ON_TRACK
  | DELAYED
  | OFF_TRACK
  | LOST
deriving DecidableEq

/-- FlightHealthReport.  Reason strings are embedded as their fixed
prefixes (the source interpolates numbers into them; every claim is
about the status and the numeric fields). -/
structure FlightHealthReport where
  status : FlightHealthStatus
  reason : String
  position_error_meters : ℝ
  altitude_error_meters : ℝ
  time_error_seconds : ℝ

/-- Module constant MAX_POSITION_ERROR_METERS. -/
def MAX_POSITION_ERROR_METERS : ℝ := 10.0

/-- Module constant MAX_ALTITUDE_ERROR_METERS. -/
def MAX_ALTITUDE_ERROR_METERS : ℝ := 5.0

/-- Module constant MAX_TIME_DELAY_SECONDS. -/
def MAX_TIME_DELAY_SECONDS : ℝ := 10.0

/-- Module constant MAX_TELEMETRY_AGE_SECONDS. -/
def MAX_TELEMETRY_AGE_SECONDS : ℝ := 30.0

/-- The body of the bracketing loop of interpolate_expected_position:
the waypoint pair test and linear interpolation performed for one
consecutive pair, named so the loop can be reasoned about. -/
noncomputable def interpSegment (elapsed_seconds : ℝ) (p : Waypoint × Waypoint) :
    Option (ℝ × ℝ × ℝ × ℝ) :=
  if p.1.time_seconds ≤ elapsed_seconds ∧ elapsed_seconds ≤ p.2.time_seconds then
    let segment_duration := p.2.time_seconds - p.1.time_seconds
    let t := if segment_duration > 0 then
      (elapsed_seconds - p.1.time_seconds) / segment_duration else 0.0
    some (p.1.latitude + t * (p.2.latitude - p.1.latitude),
      p.1.longitude + t * (p.2.longitude - p.1.longitude),
      p.1.altitude_meters + t * (p.2.altitude_meters - p.1.altitude_meters),
      elapsed_seconds)
  else none

/-- interpolate_expected_position from src/logic/flight_health.py: none
outside the [start, end] window, otherwise the interpolation on the
first bracketing waypoint pair found by the source loop, falling back to
the final waypoint after the loop (the source indexes waypoints[-1]
there; the default-valued last of an empty list mirrors it for the
nonempty plans every claim concerns). -/
noncomputable def interpolate_expected_position (plan : FlightPlan)
    (telemetry_time : ℝ) : Option (ℝ × ℝ × ℝ × ℝ) :=
  let elapsed_seconds := telemetry_time - plan.start_time
  if elapsed_seconds < 0 then none
  else
    let total_duration := plan.end_time - plan.start_time
    if elapsed_seconds > total_duration then none
    else
      match (consecutivePairs plan.waypoints).findSome? (interpSegment elapsed_seconds) with
      | some r => some r
      | none =>
        let final_wp := plan.waypoints.getLastD default
        some (final_wp.latitude, final_wp.longitude, final_wp.altitude_meters,
          elapsed_seconds)

/-- assess_flight_health from src/logic/flight_health.py: the exact
early-return chain of the source. -/
noncomputable def assess_flight_health (plan : FlightPlan) (telemetry : TelemetryUpdate)
    (current_time : ℝ) : FlightHealthReport :=
  let telemetry_age := current_time - telemetry.timestamp
  if telemetry_age > MAX_TELEMETRY_AGE_SECONDS then
    ⟨.LOST, "Telemetry stale", 0.0, 0.0, telemetry_age⟩
  else if telemetry_age < 0 then
    ⟨.LOST, "Telemetry timestamp in future", 0.0, 0.0, |telemetry_age|⟩
  else
    let elapsed_seconds := telemetry.timestamp - plan.start_time
    let total_duration := plan.end_time - plan.start_time
    if elapsed_seconds < 0 then
      ⟨.LOST, "Telemetry before flight start", 0.0, 0.0, |elapsed_seconds|⟩
    else if elapsed_seconds > total_duration + MAX_TELEMETRY_AGE_SECONDS then
      ⟨.LOST, "Telemetry after flight end", 0.0, 0.0, elapsed_seconds - total_duration⟩
    else
      match interpolate_expected_position plan telemetry.timestamp with
      | none =>
        ⟨.LOST, "Cannot interpolate expected position from plan", 0.0, 0.0, 0.0⟩
      | some (expected_lat, expected_lon, expected_alt, _expected_elapsed) =>
        let position_error := haversine_distance_meters telemetry.latitude
          telemetry.longitude expected_lat expected_lon
        let altitude_error := |telemetry.altitude_meters - expected_alt|
        let current_elapsed := current_time - plan.start_time
        let time_error := current_elapsed - elapsed_seconds
        if position_error > MAX_POSITION_ERROR_METERS then
          ⟨.OFF_TRACK, "Position error exceeds limit", position_error,
            altitude_error, time_error⟩
        else if altitude_error > MAX_ALTITUDE_ERROR_METERS then
          ⟨.OFF_TRACK, "Altitude error exceeds limit", position_error,
            altitude_error, time_error⟩
        else if time_error > MAX_TIME_DELAY_SECONDS then
          ⟨.DELAYED, "Time delay exceeds limit", position_error,
            altitude_error, time_error⟩
        else
          ⟨.ON_TRACK, "All parameters within acceptable tolerances",
            position_error, altitude_error, time_error⟩

end DATC

namespace DATC

/-! ## Claims about the capability evaluator and authorization assigner -/

/-- C6: compute_capability agrees with the reference rules of spec
section 4.1 on every input (after the documented default replacement),
and in particular motor_thrust 1.0, motor_count 4, takeoff_weight 2.5
give thrust margin 1.6 and UNSAFE, while battery_wh 50 and cruise_power
200 give safe time 11.25 and LIMITED. -/
theorem compute_capability_matches_spec :
    (∀ mt mc tw mp bw cp wl,
      compute_capability mt mc tw mp bw cp wl = spec_capability mt mc tw mp bw cp wl)
    ∧ (compute_capability (some 1) (some 4) (some 2.5) none (some 50) (some 200) none).1 = 1.6
    ∧ (compute_capability (some 1) (some 4) (some 2.5) none (some 50) (some 200) none).2.1 = "UNSAFE"
    ∧ (compute_capability (some 1) (some 4) (some 2.5) none (some 50) (some 200) none).2.2.1 = 11.25
    ∧ (compute_capability (some 1) (some 4) (some 2.5) none (some 50) (some 200) none).2.2.2.1 = "LIMITED" := by
  refine ⟨fun mt mc tw mp bw cp wl => ?_,
    by norm_num [compute_capability, orDefault],
    by norm_num [compute_capability, orDefault],
    by norm_num [compute_capability, orDefault],
    by norm_num [compute_capability, orDefault]⟩
  simp only [compute_capability, spec_capability, spec_thrust_state,
    spec_endurance_state, spec_wind_risk]
  ring_nf

/-- C4: the hard gate of auto_assign_authorization: whenever the thrust
state is not SAFE or the endurance state is not PASS, the result is
exactly (RESTRICTED, 1.0, 60), regardless of the numeric inputs. -/
theorem auto_assign_hard_floor (tm : ℚ) (ts : String) (st : ℚ) (es : String)
    ( payload_ratio : ℚ) (wr : String) (h : ts ≠ "SAFE" ∨ es ≠ "PASS") :
    auto_assign_authorization tm ts st es payload_ratio wr = ("RESTRICTED", 1.0, 60) := by
  simp only [auto_assign_authorization, if_pos h]

/-- Witness for C4 at thrust state UNSAFE. -/
theorem auto_assign_hard_floor_witness :
    (("UNSAFE" : String) ≠ "SAFE" ∨ ("PASS" : String) ≠ "PASS")
    ∧ auto_assign_authorization 5 "UNSAFE" 100 "PASS" 0.99 "LOW" = ("RESTRICTED", 1.0, 60) :=
  ⟨Or.inl (by decide),
    auto_assign_hard_floor 5 "UNSAFE" 100 "PASS" 0.99 "LOW" (Or.inl (by decide))⟩

/-- C5: on the non-gated path (thrust state SAFE, endurance state PASS),
auto_assign_authorization returns the wind-risk airspace, the safe-time
tier multiplied by 0.5 when payload ratio exceeds 0.85 and then by 1.2
when thrust margin exceeds 1.8, rounded to one decimal, and the fixed
altitude of the airspace class. -/
theorem auto_assign_pipeline (tm st : ℚ) ( payload_ratio : ℚ) (wr : String) :
    auto_assign_authorization tm "SAFE" st "PASS" payload_ratio wr =
      (spec_airspace wr,
        pythonRound1 (spec_tier st * (if payload_ratio > 0.85 then 0.5 else 1)
          * (if tm > 1.8 then 1.2 else 1)),
        spec_max_alt (spec_airspace wr)) := by
  have hg : ¬(("SAFE" : String) ≠ "SAFE" ∨ ("PASS" : String) ≠ "PASS") := by simp
  simp only [auto_assign_authorization, if_neg hg, spec_airspace, spec_tier,
    spec_max_alt, Prod.mk.injEq]
  refine ⟨trivial, ?_, trivial⟩
  congr 1
  split_ifs <;> ring

/-- C10: when the inputs are consistent with compute_capability (a SAFE
thrust state forces thrust margin above 2.2) and the hard gate passes,
the 1.2 bonus branch necessarily fires, so the returned max distance is
always round1 of tier times the payload factor times 1.2. -/
theorem auto_assign_bonus_always_applied (tm st : ℚ) (ts es : String)
    ( payload_ratio : ℚ) (wr : String)
    (hcons : ts = "SAFE" → tm > 2.2) (hts : ts = "SAFE") (hes : es = "PASS") :
    (auto_assign_authorization tm ts st es payload_ratio wr).2.1 =
      pythonRound1 (spec_tier st * (if payload_ratio > 0.85 then 0.5 else 1) * 1.2) := by
  subst hts hes
  have htm : tm > 1.8 := lt_trans (by norm_num) (hcons rfl)
  rw [auto_assign_pipeline]
  simp only [if_pos htm]

/-- Witness for C10 at thrust margin 3 with low payload. -/
theorem auto_assign_bonus_always_applied_witness :
    (("SAFE" : String) = "SAFE" → (3 : ℚ) > 2.2) ∧ ("SAFE" : String) = "SAFE"
    ∧ ("PASS" : String) = "PASS"
    ∧ (auto_assign_authorization 3 "SAFE" 5 "PASS" 0.1 "LOW").2.1 =
        pythonRound1 (spec_tier 5 * (if (0.1 : ℚ) > 0.85 then 0.5 else 1) * 1.2) :=
  ⟨fun _ => by norm_num, rfl, rfl,
    auto_assign_bonus_always_applied 3 5 "SAFE" "PASS" 0.1 "LOW"
      (fun _ => by norm_num) rfl rfl⟩

/-! ## Claims about the validator alone -/

/-- C8: a plan with fewer than two waypoints that also holds a
negative-altitude waypoint (and, as everywhere in this embedding, no
None fields) is rejected with the waypoint-count rule 1.1, not the
altitude rule, because the structural check runs first. -/
theorem validate_rule_order (plan : FlightPlan) (cfg : ValidationConfig) (now : ℝ)
    (hlen : plan.waypoints.length < 2)
    (hneg : ∃ wp ∈ plan.waypoints, wp.altitude_meters < 0) :
    validate_flight_plan plan cfg now = some "Rule 1.1" := by
  have h1 : checkWaypointCount plan = some "Rule 1.1" := by
    unfold checkWaypointCount
    rw [if_pos hlen]
  unfold validate_flight_plan
  rw [h1]
  rfl

/-- Witness for C8: a one-waypoint plan at altitude -5. -/
theorem validate_rule_order_witness :
    (FlightPlan.mk "F1" 0 1 [⟨0, 0, -5, 0⟩] 1.0).waypoints.length < 2
    ∧ (∃ wp ∈ (FlightPlan.mk "F1" 0 1 [⟨0, 0, -5, 0⟩] 1.0).waypoints,
        wp.altitude_meters < 0)
    ∧ validate_flight_plan (FlightPlan.mk "F1" 0 1 [⟨0, 0, -5, 0⟩] 1.0)
        defaultValidationConfig 0 = some "Rule 1.1" :=
  ⟨by norm_num, ⟨⟨0, 0, -5, 0⟩, by simp, by norm_num⟩,
    validate_rule_order _ defaultValidationConfig 0 (by norm_num)
      ⟨⟨0, 0, -5, 0⟩, by simp, by norm_num⟩⟩

/-- The advanced vertical-rate check ignores the descent-rate
configuration: when a climb bound is present the guard is already true
and the body never reads the descent bound; when no climb bound is
present the body can never produce a violation. -/
theorem checkVerticalRate_descent_irrelevant (plan : FlightPlan) (cfg : ValidationConfig)
    (d1 d2 : Option ℝ) :
    checkVerticalRate plan {cfg with max_descent_rate_mps := d1} =
    checkVerticalRate plan {cfg with max_descent_rate_mps := d2} := by
  unfold checkVerticalRate
  cases hc : cfg.max_climb_rate_mps with
  | some c => simp [hc]
  | none =>
    simp only [hc]
    split_ifs <;> simp [hc, List.findSome?_eq_none_iff] <;>
      exact (List.findSome?_eq_none_iff.mpr fun _ _ => rfl).symm

/-- C3: validate_flight_plan is invariant under any change of the
max_descent_rate_mps configuration field alone, for every plan and every
current time; in particular no plan ever triggers a descent-rate
violation. -/
theorem validate_descent_rate_inert (plan : FlightPlan) (cfg : ValidationConfig)
    (now : ℝ) (d1 d2 : Option ℝ) :
    validate_flight_plan plan {cfg with max_descent_rate_mps := d1} now =
    validate_flight_plan plan {cfg with max_descent_rate_mps := d2} now := by
  unfold validate_flight_plan
  rw [checkVerticalRate_descent_irrelevant plan cfg d1 d2]
  rfl

/-! ## Facts about the flight-plan generator -/

/-- generate_flight_plan in closed form: the fixed id and radius, the
buffered end time, and the waypoint list as a map over the segment
indices, with every intermediate quantity given by its proof-side
characterization. -/
theorem generate_flight_plan_eq (slat slon elat elon st speed : ℝ) :
    generate_flight_plan slat slon elat elon st speed =
      { flight_id := "TEST-FLIGHT"
        start_time := st
        end_time := st + (planMinTime slat slon elat elon speed + 1e-6)
        waypoints := (List.range
            (planSegments (planMinTime slat slon elat elon speed) + 1)).map
          (fun i => genWaypoint slat slon elat elon speed i)
        drone_radius_meters := 1.0 } := by
  simp only [generate_flight_plan, genWaypoint, planMinTime, planClimb, planCruise,
    planDescent, planPeak, planSegments]
  by_cases h : haversine_distance_meters slat slon elat elon / speed ≥
      idealClimbTime + idealDescentTime
  · simp only [if_pos h]
    have htot : idealClimbTime +
        (haversine_distance_meters slat slon elat elon / speed -
          idealClimbTime - idealDescentTime) + idealDescentTime =
        haversine_distance_meters slat slon elat elon / speed := by ring
    simp only [htot]
  · simp only [if_neg h]
    have htot : haversine_distance_meters slat slon elat elon / speed / 2.0 + 0.0 +
        haversine_distance_meters slat slon elat elon / speed / 2.0 =
        haversine_distance_meters slat slon elat elon / speed := by ring
    simp only [htot]

/-- The three phase durations always add up to the minimum flight time. -/
theorem planTotal (T : ℝ) : planClimb T + planCruise T + planDescent T = T := by
  unfold planClimb planCruise planDescent
  split_ifs <;> ring

/-- The generator always emits at least one segment. -/
theorem planSegments_pos (T : ℝ) : 0 < planSegments T := by
  unfold planSegments
  split_ifs with h
  · norm_num
  · omega

/-- The ideal climb time evaluates to ten seconds. -/
theorem idealClimbTime_eq : idealClimbTime = 10 := by
  norm_num [idealClimbTime, CRUISE_ALTITUDE_METERS, GROUND_ALTITUDE_METERS,
    MAX_CLIMB_RATE_MPS]

/-- The ideal descent time evaluates to ten seconds. -/
theorem idealDescentTime_eq : idealDescentTime = 10 := by
  norm_num [idealDescentTime, CRUISE_ALTITUDE_METERS, GROUND_ALTITUDE_METERS,
    MAX_DESCENT_RATE_MPS]

/-- A positive-duration flight always gets a positive descent phase. -/
theorem planDescent_pos (T : ℝ) (hT : 0 < T) : 0 < planDescent T := by
  unfold planDescent
  split_ifs
  · rw [idealDescentTime_eq]
    norm_num
  · positivity

/-- The climb phase is nonnegative for a nonnegative flight time. -/
theorem planClimb_nonneg (T : ℝ) (hT : 0 ≤ T) : 0 ≤ planClimb T := by
  unfold planClimb
  split_ifs
  · rw [idealClimbTime_eq]
    norm_num
  · positivity

/-- The cruise phase is never negative. -/
theorem planCruise_nonneg (T : ℝ) : 0 ≤ planCruise T := by
  unfold planCruise
  split_ifs with h
  · linarith [h]
  · norm_num

/-- At the very end of the profile the altitude is exactly zero whenever
the descent phase has positive duration. -/
theorem compute_altitude_at_total (c cr de pk : ℝ) (hcr : 0 ≤ cr) (hde : 0 < de) :
    compute_altitude_at_time (c + cr + de) c cr de pk = 0 := by
  unfold compute_altitude_at_time
  rw [if_neg (by linarith), if_neg (by linarith), if_pos hde]
  have h1 : c + cr + de - c - cr = de := by ring
  rw [h1, div_self (ne_of_gt hde)]
  ring

/-- The waypoint time emitted at index i. -/
theorem genWaypoint_time (slat slon elat elon speed : ℝ) (i : ℕ) :
    (genWaypoint slat slon elat elon speed i).time_seconds =
      ((i : ℝ) / (planSegments (planMinTime slat slon elat elon speed) : ℝ)) *
        planMinTime slat slon elat elon speed := rfl

/-- A quarter meridian has haversine distance R times half pi. -/
theorem haversine_meridian_quarter :
    haversine_distance_meters 0 0 90 0 = 6371000 * (Real.pi / 2) := by
  simp only [haversine_distance_meters]
  rw [show ((90 : ℝ) - 0) = 90 from by norm_num,
    show ((0 : ℝ) - 0) = 0 from by norm_num,
    show radians (0 : ℝ) = 0 from by simp [radians],
    show radians (90 : ℝ) = Real.pi / 2 from by simp only [radians]; ring,
    Real.cos_pi_div_two,
    show Real.pi / 2 / 2 = Real.pi / 4 from by ring,
    Real.sin_pi_div_four]
  rw [show (Real.sqrt 2 / 2) ^ 2 = 1 / 2 from by
    rw [div_pow, Real.sq_sqrt] <;> norm_num]
  norm_num
  have hx : (0 : ℝ) < (Real.sqrt 2)⁻¹ :=
    inv_pos.mpr (Real.sqrt_pos.mpr (by norm_num))
  rw [show atan2 (Real.sqrt 2)⁻¹ (Real.sqrt 2)⁻¹ = Real.pi / 4 from by
    unfold atan2
    rw [if_pos hx, div_self (ne_of_gt hx), Real.arctan_one]]
  ring

/-- The haversine distance from a point to itself is zero. -/
theorem haversine_self (lat lon : ℝ) :
    haversine_distance_meters lat lon lat lon = 0 := by
  simp [haversine_distance_meters, radians, atan2, sub_self]

/-- Every consecutive pair comes from adjacent positions of the list. -/
theorem consecutivePairs_mem {α : Type} (l : List α) (p : α × α)
    (hp : p ∈ consecutivePairs l) :
    ∃ i, l.get? i = some p.1 ∧ l.get? (i + 1) = some p.2 := by
  induction l with
  | nil => simp [consecutivePairs] at hp
  | cons a tail ih =>
    cases tail with
    | nil => simp [consecutivePairs] at hp
    | cons b rest =>
      rw [show consecutivePairs (a :: b :: rest) = (a, b) :: consecutivePairs (b :: rest)
        from rfl] at hp
      rcases List.mem_cons.mp hp with h | h
      · exact ⟨0, by simp [h], by simp [h]⟩
      · obtain ⟨i, h1, h2⟩ := ih h
        exact ⟨i + 1, by simpa using h1, by simpa using h2⟩

/-- Adjacent positions of the list give a consecutive pair. -/
theorem mem_consecutivePairs {α : Type} (l : List α) (a b : α) (i : ℕ)
    (h1 : l.get? i = some a) (h2 : l.get? (i + 1) = some b) :
    (a, b) ∈ consecutivePairs l := by
  induction l generalizing i with
  | nil => simp at h1
  | cons x tail ih =>
    cases i with
    | zero =>
      simp only [List.get?_cons_zero, Option.some.injEq] at h1
      cases tail with
      | nil => simp at h2
      | cons y rest =>
        simp only [List.get?_cons_succ, List.get?_cons_zero, Option.some.injEq] at h2
        subst h1
        subst h2
        exact List.mem_cons_self _ _
    | succ j =>
      simp only [List.get?_cons_succ] at h1 h2
      have hmem := ih j h1 h2
      cases tail with
      | nil => simp at h1
      | cons y rest =>
        exact List.mem_cons_of_mem _ hmem

/-- A degree difference converts to a nonzero radian difference. -/
theorem radians_ne_zero (z : ℝ) (hz : z ≠ 0) : radians z ≠ 0 := by
  unfold radians
  exact div_ne_zero (mul_ne_zero hz Real.pi_ne_zero) (by norm_num)

/-- Radians distribute over subtraction. -/
theorem radians_sub (a b : ℝ) : radians a - radians b = radians (a - b) := by
  unfold radians
  ring

/-- A positive haversine distance forces a nonzero haversine
intermediate a. -/
theorem haversine_a_ne_zero (lat1 lon1 lat2 lon2 : ℝ)
    (hd : 0 < haversine_distance_meters lat1 lon1 lat2 lon2) :
    Real.sin (radians (lat2 - lat1) / 2) ^ 2 +
      Real.cos (radians lat1) * Real.cos (radians lat2) *
        Real.sin (radians (lon2 - lon1) / 2) ^ 2 ≠ 0 := by
  intro h
  simp only [haversine_distance_meters] at hd
  rw [h] at hd
  norm_num [atan2, Real.arctan_zero] at hd

/-- Altitude profile bounds: inside the time span of a profile with
nonnegative climb and cruise, positive descent and nonnegative peak, the
altitude stays between zero and the peak. -/
theorem compute_altitude_bounds (e c cr de pk : ℝ) (hcr : 0 ≤ cr)
    (hde : 0 < de) (hpk : 0 ≤ pk) (he0 : 0 ≤ e) (he1 : e ≤ c + cr + de) :
    0 ≤ compute_altitude_at_time e c cr de pk ∧
      compute_altitude_at_time e c cr de pk ≤ pk := by
  unfold compute_altitude_at_time
  split_ifs with h1 h2 h3
  · constructor
    · exact mul_nonneg (div_nonneg he0 h2.le) hpk
    · calc (e / c) * pk ≤ 1 * pk :=
          mul_le_mul_of_nonneg_right ((div_le_one h2).mpr h1) hpk
        _ = pk := one_mul pk
  · exact ⟨hpk, le_refl pk⟩
  · exact ⟨hpk, le_refl pk⟩
  · push_neg at h1 h3
    have hq0 : 0 ≤ (e - c - cr) / de := div_nonneg (by linarith) hde.le
    have hq1 : (e - c - cr) / de ≤ 1 := (div_le_one hde).mpr (by linarith)
    constructor
    · nlinarith [mul_le_mul_of_nonneg_right hq1 hpk]
    · have h4 : 0 ≤ (e - c - cr) / de * pk := mul_nonneg hq0 hpk
      linarith

/-- The peak altitude is always between zero and the cruise altitude. -/
theorem planPeak_bounds (T : ℝ) (hT : 0 ≤ T) :
    0 ≤ planPeak T ∧ planPeak T ≤ 30 := by
  unfold planPeak
  split_ifs with h
  · norm_num [CRUISE_ALTITUDE_METERS]
  · push_neg at h
    rw [idealClimbTime_eq, idealDescentTime_eq] at h
    constructor
    · norm_num [MAX_CLIMB_RATE_MPS]
      positivity
    · norm_num [MAX_CLIMB_RATE_MPS]
      linarith

/-- The segment count is less than half the duration plus one. -/
theorem planSegments_lt (T : ℝ) (hT : 0 < T) :
    (planSegments T : ℝ) < T / 2 + 1 := by
  unfold planSegments WAYPOINT_INTERVAL_SECONDS
  have h2 : (0 : ℝ) ≤ T / 2.0 := by positivity
  split_ifs with h
  · push_cast
    linarith
  · calc ((⌈T / 2.0⌉₊ : ℝ)) < T / 2.0 + 1 := Nat.ceil_lt_add_one h2
      _ = T / 2 + 1 := by norm_num

/-- Convex combinations stay inside an interval. -/
theorem convex_bound (lo hi x y t : ℝ) (hx1 : lo ≤ x) (hx2 : x ≤ hi)
    (hy1 : lo ≤ y) (hy2 : y ≤ hi) (ht0 : 0 ≤ t) (ht1 : t ≤ 1) :
    lo ≤ x + t * (y - x) ∧ x + t * (y - x) ≤ hi := by
  constructor
  · nlinarith [mul_nonneg (sub_nonneg.mpr ht1) (sub_nonneg.mpr hx1),
      mul_nonneg ht0 (sub_nonneg.mpr hy1)]
  · nlinarith [mul_nonneg (sub_nonneg.mpr ht1) (sub_nonneg.mpr hx2),
      mul_nonneg ht0 (sub_nonneg.mpr hy2)]

set_option maxHeartbeats 1600000 in
theorem validate_generate (slat slon elat elon st now speed : ℝ)
    (hlat1 : -90 ≤ slat) (hlat2 : slat ≤ 90) (hlat3 : -90 ≤ elat) (hlat4 : elat ≤ 90)
    (hlon1 : -180 ≤ slon) (hlon2 : slon ≤ 180) (hlon3 : -180 ≤ elon) (hlon4 : elon ≤ 180)
    (hd : 0 < haversine_distance_meters slat slon elat elon)
    (hv : 0 < speed)
    (hmin : 0.2 ≤ planMinTime slat slon elat elon speed)
    (hdur : planMinTime slat slon elat elon speed + 1e-6 ≤ 3600)
    (htol : -5 ≤ st - now)
    (hhor : st - now ≤ 30 * 86400) :
    validate_flight_plan (generate_flight_plan slat slon elat elon st speed)
      defaultValidationConfig now = none := by
  rw [generate_flight_plan_eq]
  set T := planMinTime slat slon elat elon speed with hTdef
  have hT : 0 < T := by
    rw [hTdef]
    unfold planMinTime
    exact div_pos hd hv
  set n := planSegments T with hndef
  set f : ℕ → Waypoint := fun i => genWaypoint slat slon elat elon speed i with hfdef
  set wps : List Waypoint := (List.range (n + 1)).map f with hwps
  set P : FlightPlan :=
    { flight_id := "TEST-FLIGHT"
      start_time := st
      end_time := st + (T + 1e-6)
      waypoints := wps
      drone_radius_meters := 1.0 } with hP
  have hn : 0 < n := planSegments_pos T
  have hnR : (0 : ℝ) < (n : ℝ) := by exact_mod_cast hn
  have hnlt : (n : ℝ) < T / 2 + 1 := planSegments_lt T hT
  have hdt : 0.1 < T / (n : ℝ) := by
    rw [lt_div_iff hnR]
    nlinarith
  have hget : ∀ i : ℕ, i ≤ n → wps.get? i = some (f i) := by
    intro i hi
    rw [hwps, List.get?_map, List.get?_range (by omega)]
    rfl
  have hlen : wps.length = n + 1 := by
    rw [hwps, List.length_map, List.length_range]
  have hmem : ∀ wp ∈ wps, ∃ i : ℕ, i ≤ n ∧ wp = f i := by
    intro wp hwp
    rw [hwps] at hwp
    obtain ⟨i, hi, rfl⟩ := List.mem_map.mp hwp
    exact ⟨i, Nat.lt_succ_iff.mp (List.mem_range.mp hi), rfl⟩
  have hpairmem : ∀ p ∈ consecutivePairs wps,
      ∃ i : ℕ, i < n ∧ p.1 = f i ∧ p.2 = f (i + 1) := by
    intro p hp
    obtain ⟨i, h1, h2⟩ := consecutivePairs_mem wps p hp
    obtain ⟨hlt, -⟩ := List.get?_eq_some.mp h2
    rw [hlen] at hlt
    have hi : i < n := by omega
    have e1 : some p.1 = some (f i) := by rw [← h1, hget i (by omega)]
    have e2 : some p.2 = some (f (i + 1)) := by rw [← h2, hget (i + 1) (by omega)]
    exact ⟨i, hi, Option.some.inj e1, Option.some.inj e2⟩
  -- per-index coordinates and times
  have hftime : ∀ i : ℕ, (f i).time_seconds = ((i : ℝ) / (n : ℝ)) * T := fun i => rfl
  have hflat : ∀ i : ℕ, (f i).latitude = slat + ((i : ℝ) / (n : ℝ)) * (elat - slat) :=
    fun i => rfl
  have hflon : ∀ i : ℕ, (f i).longitude = slon + ((i : ℝ) / (n : ℝ)) * (elon - slon) :=
    fun i => rfl
  have hfalt : ∀ i : ℕ, (f i).altitude_meters =
      compute_altitude_at_time (((i : ℝ) / (n : ℝ)) * T) (planClimb T) (planCruise T)
        (planDescent T) (planPeak T) := fun i => rfl
  have ht01 : ∀ i : ℕ, i ≤ n → 0 ≤ (i : ℝ) / (n : ℝ) ∧ (i : ℝ) / (n : ℝ) ≤ 1 := by
    intro i hi
    constructor
    · positivity
    · rw [div_le_one hnR]
      exact_mod_cast hi
  have halt : ∀ i : ℕ, i ≤ n →
      0 ≤ (f i).altitude_meters ∧ (f i).altitude_meters ≤ 120 := by
    intro i hi
    obtain ⟨ht0, ht1⟩ := ht01 i hi
    rw [hfalt i]
    have hpk := planPeak_bounds T hT.le
    have he0 : 0 ≤ ((i : ℝ) / (n : ℝ)) * T := mul_nonneg ht0 hT.le
    have he1 : ((i : ℝ) / (n : ℝ)) * T ≤
        planClimb T + planCruise T + planDescent T := by
      rw [planTotal]
      nlinarith
    have hb := compute_altitude_bounds (((i : ℝ) / (n : ℝ)) * T) (planClimb T)
      (planCruise T) (planDescent T) (planPeak T) (planCruise_nonneg T)
      (planDescent_pos T hT) hpk.1 he0 he1
    exact ⟨hb.1, le_trans hb.2 (le_trans hpk.2 (by norm_num))⟩
  have hdelta : ∀ i : ℕ, (f (i + 1)).time_seconds - (f i).time_seconds = T / (n : ℝ) := by
    intro i
    rw [hftime, hftime]
    push_cast
    ring
  -- individual checks
  have c1 : checkWaypointCount P = none := by
    have hc : ¬(P.waypoints.length < 2) := by
      show ¬(wps.length < 2)
      rw [hlen]
      omega
    unfold checkWaypointCount
    rw [if_neg hc]
  have c2 : checkFlightId P = none := by
    have hc : ¬(P.flight_id.data.all (fun c => c.isWhitespace) = true) := by
      show ¬(("TEST-FLIGHT").data.all (fun c => c.isWhitespace) = true)
      decide
    unfold checkFlightId
    rw [if_neg hc]
  have c3 : checkCoordinates P = none := by
    unfold checkCoordinates
    rw [List.findSome?_eq_none_iff]
    intro wp hwp
    obtain ⟨i, hi, rfl⟩ := hmem wp hwp
    obtain ⟨ht0, ht1⟩ := ht01 i hi
    have hb1 := convex_bound (-90) 90 slat elat ((i : ℝ) / (n : ℝ))
      hlat1 hlat2 hlat3 hlat4 ht0 ht1
    have hb2 := convex_bound (-180) 180 slon elon ((i : ℝ) / (n : ℝ))
      hlon1 hlon2 hlon3 hlon4 ht0 ht1
    have hc1 : ¬((f i).latitude < -90.0 ∨ (f i).latitude > 90.0) := by
      rw [hflat i]
      push_neg
      constructor
      · norm_num
        linarith [hb1.1]
      · norm_num
        linarith [hb1.2]
    have hc2 : ¬((f i).longitude < -180.0 ∨ (f i).longitude > 180.0) := by
      rw [hflon i]
      push_neg
      constructor
      · norm_num
        linarith [hb2.1]
      · norm_num
        linarith [hb2.2]
    rw [if_neg hc1, if_neg hc2]
  have c4 : checkAltitudes P defaultValidationConfig = none := by
    unfold checkAltitudes
    rw [List.findSome?_eq_none_iff]
    intro wp hwp
    obtain ⟨i, hi, rfl⟩ := hmem wp hwp
    obtain ⟨ha0, ha1⟩ := halt i hi
    have hc1 : ¬((f i).altitude_meters < 0.0) := by
      push_neg
      norm_num
      linarith
    have hc2 : ¬((f i).altitude_meters > defaultValidationConfig.max_altitude_meters) := by
      push_neg
      have h120 : defaultValidationConfig.max_altitude_meters = 120 := by
        norm_num [defaultValidationConfig]
      rw [h120]
      linarith
    rw [if_neg hc1, if_neg hc2]
  have c5 : checkRadius P defaultValidationConfig = none := by
    have h1 : ¬(P.drone_radius_meters ≤ 0.0) := by
      show ¬((1.0 : ℝ) ≤ 0.0)
      norm_num
    have h2 : ¬(P.drone_radius_meters < defaultValidationConfig.min_drone_radius_meters) := by
      show ¬((1.0 : ℝ) < 0.5)
      norm_num
    have h3 : ¬(P.drone_radius_meters > defaultValidationConfig.max_drone_radius_meters) := by
      show ¬((1.0 : ℝ) > 5.0)
      norm_num
    unfold checkRadius
    rw [if_neg h1, if_neg h2, if_neg h3]
  have hhead : P.waypoints.headI.time_seconds = 0 := by
    show wps.headI.time_seconds = 0
    rw [hwps, List.range_succ_eq_map]
    simp only [List.map_cons, List.headI]
    rw [hftime 0]
    norm_num
  have c6 : checkFirstWaypointTime P = none := by
    unfold checkFirstWaypointTime
    rw [if_neg (not_ne_iff.mpr (by rw [hhead]; norm_num))]
  have c7 : checkTimeOrdering P = none := by
    unfold checkTimeOrdering
    rw [List.findSome?_eq_none_iff]
    intro p hp
    obtain ⟨i, hi, h1, h2⟩ := hpairmem p hp
    have hlt : p.1.time_seconds < p.2.time_seconds := by
      rw [h1, h2]
      have := hdelta i
      have hpos : 0 < T / (n : ℝ) := by positivity
      linarith
    rw [if_neg (not_le.mpr hlt)]
  have c8 : checkTimeDelta P defaultValidationConfig = none := by
    unfold checkTimeDelta
    rw [List.findSome?_eq_none_iff]
    intro p hp
    obtain ⟨i, hi, h1, h2⟩ := hpairmem p hp
    have hc : ¬(p.2.time_seconds - p.1.time_seconds <
        defaultValidationConfig.min_time_delta_seconds) := by
      push_neg
      have h01 : defaultValidationConfig.min_time_delta_seconds = 0.1 := by
        norm_num [defaultValidationConfig]
      rw [h01, h1, h2, hdelta i]
      linarith
    rw [if_neg hc]
  have c9 : checkStartBeforeEnd P = none := by
    have hc : ¬(P.start_time ≥ P.end_time) := by
      show ¬(st ≥ st + (T + 1e-6))
      push_neg
      have : (0 : ℝ) < 1e-6 := by norm_num
      linarith
    unfold checkStartBeforeEnd
    rw [if_neg hc]
  have hfin : finalWaypointTime P = T := by
    unfold finalWaypointTime
    show (wps.getLastD default).time_seconds = T
    rw [hwps, List.range_succ, List.map_append]
    simp only [List.map_cons, List.map_nil, List.getLastD_concat]
    rw [hftime n, div_self (ne_of_gt hnR), one_mul]
  have c10 : checkWindow P = none := by
    have hc : ¬(finalWaypointTime P > (P.end_time - P.start_time) + 1e-6) := by
      rw [hfin]
      show ¬(T > (st + (T + 1e-6) - st) + 1e-6)
      push_neg
      have : (0 : ℝ) < 1e-6 := by norm_num
      linarith
    unfold checkWindow
    rw [if_neg hc]
  have c11 : checkFutureStart P defaultValidationConfig now = none := by
    have hc : ¬(P.start_time - now <
        -defaultValidationConfig.start_time_tolerance_seconds) := by
      have h5 : defaultValidationConfig.start_time_tolerance_seconds = 5 := by
        norm_num [defaultValidationConfig]
      rw [h5]
      show ¬(st - now < -(5 : ℝ))
      push_neg
      linarith
    unfold checkFutureStart
    rw [if_neg hc]
  have c12 : checkBookingHorizon P defaultValidationConfig now = none := by
    have hc : ¬(P.start_time - now >
        defaultValidationConfig.max_advance_booking_days * 86400) := by
      have h30 : defaultValidationConfig.max_advance_booking_days = 30 := by
        norm_num [defaultValidationConfig]
      rw [h30]
      show ¬(st - now > (30 : ℝ) * 86400)
      push_neg
      linarith
    unfold checkBookingHorizon
    rw [if_neg hc]
  have c13 : checkDuration P defaultValidationConfig = none := by
    have hc : ¬(P.end_time - P.start_time >
        defaultValidationConfig.max_flight_duration_seconds) := by
      have h36 : defaultValidationConfig.max_flight_duration_seconds = 3600 := by
        norm_num [defaultValidationConfig]
      rw [h36]
      show ¬(st + (T + 1e-6) - st > (3600 : ℝ))
      push_neg
      linarith
    unfold checkDuration
    rw [if_neg hc]
  have c14 : checkWindowAgain P = none := by
    have hc : ¬((P.end_time - P.start_time) + 1e-6 < finalWaypointTime P) := by
      rw [hfin]
      show ¬(st + (T + 1e-6) - st + 1e-6 < T)
      push_neg
      have : (0 : ℝ) < 1e-6 := by norm_num
      linarith
    unfold checkWindowAgain
    rw [if_neg hc]
  have c15 : checkDuplicates P = none := by
    unfold checkDuplicates
    rw [List.findSome?_eq_none_iff]
    intro p hp
    obtain ⟨i, hi, h1, h2⟩ := hpairmem p hp
    rw [if_neg]
    rintro ⟨e1, e2, -⟩
    rw [h1, h2, hflat i, hflat (i + 1)] at e1
    rw [h1, h2, hflon i, hflon (i + 1)] at e2
    push_cast at e1 e2
    have h4 : (1 / (n : ℝ)) * (elat - slat) = 0 := by linear_combination -e1
    have h5 : (1 / (n : ℝ)) * (elon - slon) = 0 := by linear_combination -e2
    have hlat0 : elat - slat = 0 := by
      rcases mul_eq_zero.mp h4 with h | h
      · exact absurd h (one_div_ne_zero (ne_of_gt hnR))
      · exact h
    have hlon0 : elon - slon = 0 := by
      rcases mul_eq_zero.mp h5 with h | h
      · exact absurd h (one_div_ne_zero (ne_of_gt hnR))
      · exact h
    have hz : haversine_distance_meters slat slon elat elon = 0 := by
      have hle : elat = slat := by linarith
      have hlo : elon = slon := by linarith
      rw [hle, hlo, haversine_self]
    rw [hz] at hd
    exact absurd hd (lt_irrefl 0)
  have hpos01 : 0 < horizontal_distance_meters (f 0) (f 1) := by
    have hf0lat : (f 0).latitude = slat := by rw [hflat 0]; norm_num
    have hf1lat : (f 1).latitude = slat + (1 / (n : ℝ)) * (elat - slat) := by
      rw [hflat 1]; norm_num
    have hf0lon : (f 0).longitude = slon := by rw [hflon 0]; norm_num
    have hf1lon : (f 1).longitude = slon + (1 / (n : ℝ)) * (elon - slon) := by
      rw [hflon 1]; norm_num
    simp only [horizontal_distance_meters]
    apply mul_pos _ (by norm_num : (0 : ℝ) < 6371000.0)
    apply Real.sqrt_pos.mpr
    by_cases hy : elat = slat
    · have hprod := haversine_a_ne_zero slat slon elat elon hd
      rw [hy, sub_self, show radians (0 : ℝ) = 0 from by simp [radians]] at hprod
      norm_num [Real.sin_zero] at hprod
      have hcos : Real.cos (radians slat) ≠ 0 := hprod.1
      have hsin : Real.sin (radians (elon - slon) / 2) ≠ 0 := hprod.2
      have hlon_ne : elon - slon ≠ 0 := by
        intro h
        apply hsin
        rw [h, show radians (0 : ℝ) = 0 from by simp [radians]]
        norm_num
      have hlat_eq : (f 1).latitude = slat := by rw [hf1lat, hy]; ring
      rw [hf0lat, hlat_eq, hf0lon, hf1lon]
      have harg : slon + 1 / (n : ℝ) * (elon - slon) - slon =
          1 / (n : ℝ) * (elon - slon) := by ring
      have hmean : (radians slat + radians slat) / 2.0 = radians slat := by
        norm_num
      rw [harg, hmean, sub_self]
      have hx : radians (1 / (n : ℝ) * (elon - slon)) * Real.cos (radians slat) ≠ 0 :=
        mul_ne_zero
          (radians_ne_zero _ (mul_ne_zero (one_div_ne_zero (ne_of_gt hnR)) hlon_ne))
          hcos
      have := mul_self_pos.mpr hx
      nlinarith
    · have hy2 : radians (slat + 1 / (n : ℝ) * (elat - slat)) - radians slat =
          radians (1 / (n : ℝ) * (elat - slat)) := by
        rw [radians_sub]
        congr 1
        ring
      rw [hf0lat, hf1lat, hy2]
      have hyne : radians (1 / (n : ℝ) * (elat - slat)) ≠ 0 :=
        radians_ne_zero _
          (mul_ne_zero (one_div_ne_zero (ne_of_gt hnR)) (sub_ne_zero.mpr hy))
      have := mul_self_pos.mpr hyne
      nlinarith
  have c16 : checkPathLength P defaultValidationConfig = none := by
    have hnn : ∀ x ∈ (consecutivePairs wps).map
        (fun p => horizontal_distance_meters p.1 p.2), 0 ≤ x := by
      intro x hx
      obtain ⟨p, hp, rfl⟩ := List.mem_map.mp hx
      simp only [horizontal_distance_meters]
      positivity
    have hpr : (f 0, f 1) ∈ consecutivePairs wps :=
      mem_consecutivePairs wps (f 0) (f 1) 0 (hget 0 (by omega)) (hget 1 (by omega))
    have h01mem : horizontal_distance_meters (f 0) (f 1) ∈
        (consecutivePairs wps).map (fun p => horizontal_distance_meters p.1 p.2) :=
      List.mem_map.mpr ⟨(f 0, f 1), hpr, rfl⟩
    have htot : 0 < calculate_total_path_length P.waypoints := by
      show 0 < calculate_total_path_length wps
      unfold calculate_total_path_length
      calc (0 : ℝ) < horizontal_distance_meters (f 0) (f 1) := hpos01
        _ ≤ _ := List.single_le_sum hnn _ h01mem
    have hc : ¬(calculate_total_path_length P.waypoints ≤ 0.0) := by
      push_neg
      have h00 : (0.0 : ℝ) = 0 := by norm_num
      rw [h00]
      exact htot
    unfold checkPathLength
    rw [if_neg hc]
    rfl
  have c17 : checkVelocity P defaultValidationConfig = none := rfl
  have c18 : checkVerticalRate P defaultValidationConfig = none := rfl
  unfold validate_flight_plan
  rw [c1, c2, c3, c4, c5, c6, c7, c8, c9, c10, c11, c12, c13, c14, c15, c16, c17, c18]
  rfl

/-! ## Claims about the flight-plan generator -/

/-- Shape of every generated plan at positive haversine distance and
positive speed: the first waypoint time is exactly zero, the waypoint
times strictly increase, the profile's descent phase has positive
duration, and the final waypoint's altitude is exactly zero. -/
theorem generate_plan_shape (slat slon elat elon st speed : ℝ)
    (hd : 0 < haversine_distance_meters slat slon elat elon) (hv : 0 < speed) :
    (generate_flight_plan slat slon elat elon st speed).waypoints.headI.time_seconds = 0
    ∧ (generate_flight_plan slat slon elat elon st speed).waypoints.Pairwise
        (fun a b => a.time_seconds < b.time_seconds)
    ∧ 0 < planDescent (planMinTime slat slon elat elon speed)
    ∧ ((generate_flight_plan slat slon elat elon st speed).waypoints.getLastD
        default).altitude_meters = 0 := by
  have hT : 0 < planMinTime slat slon elat elon speed := div_pos hd hv
  have hn : 0 < planSegments (planMinTime slat slon elat elon speed) :=
    planSegments_pos _
  have hnR : (0 : ℝ) < (planSegments (planMinTime slat slon elat elon speed) : ℝ) := by
    exact_mod_cast hn
  rw [generate_flight_plan_eq]
  refine ⟨?_, ?_, planDescent_pos _ hT, ?_⟩
  · rw [List.range_succ_eq_map]
    simp only [List.map_cons, List.headI]
    rw [genWaypoint_time]
    norm_num
  · rw [List.pairwise_map]
    refine (List.pairwise_lt_range _).imp ?_
    intro i j hij
    rw [genWaypoint_time, genWaypoint_time]
    exact mul_lt_mul_of_pos_right
      (div_lt_div_of_pos_right (by exact_mod_cast hij) hnR) hT
  · rw [List.range_succ, List.map_append]
    simp only [List.map_cons, List.map_nil, List.getLastD_concat]
    show compute_altitude_at_time _ _ _ _ _ = 0
    rw [show ((planSegments (planMinTime slat slon elat elon speed) : ℝ) /
        (planSegments (planMinTime slat slon elat elon speed) : ℝ)) *
        planMinTime slat slon elat elon speed =
        planClimb (planMinTime slat slon elat elon speed) +
        planCruise (planMinTime slat slon elat elon speed) +
        planDescent (planMinTime slat slon elat elon speed) from by
      rw [div_self (ne_of_gt hnR), one_mul, planTotal]]
    exact compute_altitude_at_total _ _ _ _ (planCruise_nonneg _)
      (planDescent_pos _ hT)

/-- The shape facts exercised on the quarter meridian at speed 10. -/
theorem generate_plan_shape_witness :
    (0 : ℝ) < haversine_distance_meters 0 0 90 0 ∧ (0 : ℝ) < 10
    ∧ ((generate_flight_plan 0 0 90 0 0 10).waypoints.headI.time_seconds = 0
      ∧ (generate_flight_plan 0 0 90 0 0 10).waypoints.Pairwise
          (fun a b => a.time_seconds < b.time_seconds)
      ∧ 0 < planDescent (planMinTime 0 0 90 0 10)
      ∧ ((generate_flight_plan 0 0 90 0 0 10).waypoints.getLastD
          default).altitude_meters = 0) := by
  have hd : (0 : ℝ) < haversine_distance_meters 0 0 90 0 := by
    rw [haversine_meridian_quarter]
    positivity
  exact ⟨hd, by norm_num, generate_plan_shape 0 0 90 0 0 10 hd (by norm_num)⟩


/-- The haversine distance of the spec example (0,0) to (0,0.001) in
closed form: Earth radius times the longitude difference in radians. -/
theorem haversine_small :
    haversine_distance_meters 0 0 0 0.001 = 6371000 * (0.001 * Real.pi / 180) := by
  have hpi := Real.pi_pos
  have htpos : 0 < radians 0.001 / 2 := by
    simp only [radians]
    positivity
  have htlt : radians 0.001 / 2 < Real.pi / 2 := by
    simp only [radians]
    nlinarith
  have hsin_nonneg : 0 ≤ Real.sin (radians 0.001 / 2) :=
    Real.sin_nonneg_of_nonneg_of_le_pi htpos.le (by nlinarith)
  have hcos_pos : 0 < Real.cos (radians 0.001 / 2) :=
    Real.cos_pos_of_mem_Ioo ⟨by nlinarith, htlt⟩
  simp only [haversine_distance_meters]
  rw [show ((0 : ℝ) - 0) = 0 from by norm_num,
    show ((0.001 : ℝ) - 0) = 0.001 from by norm_num,
    show radians (0 : ℝ) = 0 from by simp [radians]]
  rw [show Real.sin (0 / 2) ^ 2 + Real.cos 0 * Real.cos 0 *
        Real.sin (radians 0.001 / 2) ^ 2 = Real.sin (radians 0.001 / 2) ^ 2 from by
    rw [show ((0 : ℝ) / 2) = 0 from by norm_num, Real.sin_zero, Real.cos_zero]
    ring]
  rw [show (1 : ℝ) - Real.sin (radians 0.001 / 2) ^ 2 =
      Real.cos (radians 0.001 / 2) ^ 2 from by
    nlinarith [Real.sin_sq_add_cos_sq (radians 0.001 / 2)]]
  rw [Real.sqrt_sq_eq_abs, Real.sqrt_sq_eq_abs, abs_of_nonneg hsin_nonneg,
    abs_of_nonneg hcos_pos.le]
  rw [show atan2 (Real.sin (radians 0.001 / 2)) (Real.cos (radians 0.001 / 2)) =
      radians 0.001 / 2 from by
    unfold atan2
    rw [if_pos hcos_pos, ← Real.tan_eq_sin_div_cos,
      Real.arctan_tan (by nlinarith) htlt]]
  simp only [radians]
  ring

/-- Numeric bounds for the spec example distance (about 111.2 m). -/
theorem haversine_small_bounds :
    111 < haversine_distance_meters 0 0 0 0.001
    ∧ haversine_distance_meters 0 0 0 0.001 < 112 := by
  rw [haversine_small]
  constructor
  · nlinarith [Real.pi_gt_3141592]
  · nlinarith [Real.pi_lt_3141593]

/-- C1 counterexample: the claim quantifies over every positive speed,
but at speed 1e9 m/s over the spec example pair the plan's single
segment lasts about 1.1e-7 s, under the 0.1 s minimum time delta, so
validation raises Rule 4.5 even though the distance is positive, the
speed is positive and the start time is 10 s ahead of the current
time. -/
theorem validate_generate_counterexample :
    (0 < haversine_distance_meters 0 0 0 0.001) ∧ ((0 : ℝ) < 1e9)
    ∧ (-5 ≤ (10 : ℝ) - 0) ∧ ((10 : ℝ) - 0 ≤ 30 * 86400)
    ∧ validate_flight_plan (generate_flight_plan 0 0 0 0.001 10 1e9)
        defaultValidationConfig 0 ≠ none := by
  obtain ⟨hlo, hhi⟩ := haversine_small_bounds
  refine ⟨by linarith, by norm_num, by norm_num, by norm_num, ?_⟩
  have hT0 : 0 < planMinTime 0 0 0 0.001 1e9 := by
    unfold planMinTime
    apply div_pos (by linarith) (by norm_num)
  have hTsmall : planMinTime 0 0 0 0.001 1e9 < 0.1 := by
    unfold planMinTime
    rw [div_lt_iff (by norm_num : (0 : ℝ) < 1e9)]
    nlinarith
  have hseg : planSegments (planMinTime 0 0 0 0.001 1e9) = 1 := by
    unfold planSegments WAYPOINT_INTERVAL_SECONDS
    have hc1 : ⌈planMinTime 0 0 0 0.001 1e9 / 2.0⌉₊ = 1 := by
      have h1 : 0 < planMinTime 0 0 0 0.001 1e9 / 2.0 := by positivity
      have h3 := Nat.ceil_le.mpr
        (show planMinTime 0 0 0 0.001 1e9 / 2.0 ≤ ((1 : ℕ) : ℝ) by
          push_cast
          linarith)
      have h4 := Nat.ceil_pos.mpr h1
      omega
    rw [hc1]
    norm_num
  intro hnone
  rw [generate_flight_plan_eq] at hnone
  unfold validate_flight_plan at hnone
  simp only [Option.orElse_eq_none] at hnone
  obtain ⟨-, -, -, -, -, -, -, h45, -⟩ := hnone
  unfold checkTimeDelta at h45
  rw [List.findSome?_eq_none_iff] at h45
  have hg0 : ((List.range (planSegments (planMinTime 0 0 0 0.001 1e9) + 1)).map
      (fun i => genWaypoint 0 0 0 0.001 1e9 i)).get? 0 =
      some (genWaypoint 0 0 0 0.001 1e9 0) := by
    rw [hseg]
    rfl
  have hg1 : ((List.range (planSegments (planMinTime 0 0 0 0.001 1e9) + 1)).map
      (fun i => genWaypoint 0 0 0 0.001 1e9 i)).get? 1 =
      some (genWaypoint 0 0 0 0.001 1e9 1) := by
    rw [hseg]
    rfl
  have hmem2 := mem_consecutivePairs _ _ _ 0 hg0 hg1
  have hcontr := h45 (genWaypoint 0 0 0 0.001 1e9 0, genWaypoint 0 0 0 0.001 1e9 1) hmem2
  rw [if_pos] at hcontr
  · exact Option.some_ne_none _ hcontr
  · show (genWaypoint 0 0 0 0.001 1e9 1).time_seconds -
        (genWaypoint 0 0 0 0.001 1e9 0).time_seconds <
        defaultValidationConfig.min_time_delta_seconds
    rw [genWaypoint_time, genWaypoint_time, hseg]
    have h01 : defaultValidationConfig.min_time_delta_seconds = 0.1 := by
      norm_num [defaultValidationConfig]
    rw [h01]
    push_cast
    norm_num
    linarith

/-- Witness for C1 (amended): the spec example, origin (0,0),
destination (0,0.001), speed 10 m/s, start 10 s after the current time,
validates cleanly. -/
theorem validate_generate_witness :
    ((0 : ℝ) < haversine_distance_meters 0 0 0 0.001) ∧ ((0 : ℝ) < 10)
    ∧ (0.2 ≤ planMinTime 0 0 0 0.001 10)
    ∧ (planMinTime 0 0 0 0.001 10 + 1e-6 ≤ 3600)
    ∧ (-5 ≤ (10 : ℝ) - 0) ∧ ((10 : ℝ) - 0 ≤ 30 * 86400)
    ∧ validate_flight_plan (generate_flight_plan 0 0 0 0.001 10 10)
        defaultValidationConfig 0 = none := by
  obtain ⟨hlo, hhi⟩ := haversine_small_bounds
  have hT2 : 0.2 ≤ planMinTime 0 0 0 0.001 10 := by
    unfold planMinTime
    rw [le_div_iff (by norm_num : (0 : ℝ) < 10)]
    linarith
  have hT3 : planMinTime 0 0 0 0.001 10 + 1e-6 ≤ 3600 := by
    unfold planMinTime
    have h12 : haversine_distance_meters 0 0 0 0.001 / 10 < 12 := by
      rw [div_lt_iff (by norm_num : (0 : ℝ) < 10)]
      linarith
    linarith
  exact ⟨by linarith, by norm_num, hT2, hT3, by norm_num, by norm_num,
    validate_generate 0 0 0 0.001 10 0 10 (by norm_num) (by norm_num) (by norm_num)
      (by norm_num) (by norm_num) (by norm_num) (by norm_num) (by norm_num)
      (by linarith) (by norm_num) hT2 hT3 (by norm_num) (by norm_num)⟩


/-! ## Facts about the flight-health monitor -/

/-- The last element of a list with at least two elements ignores its
head. -/
theorem getLastD_cons_cons (a b : Waypoint) (rest : List Waypoint) :
    ((a :: b :: rest).getLastD default) = ((b :: rest).getLastD default) := by
  simp [List.getLastD_cons]

/-- In a strictly time-sorted nonempty waypoint list the head's time is
at most the last waypoint's time. -/
theorem headI_time_le_getLastD (l : List Waypoint) (hne : l ≠ [])
    (hs : l.Pairwise (fun x y => x.time_seconds < y.time_seconds)) :
    l.headI.time_seconds ≤ (l.getLastD default).time_seconds := by
  induction l with
  | nil => exact absurd rfl hne
  | cons a tail ih =>
    cases tail with
    | nil => simp [List.getLastD]
    | cons b rest =>
      have hcons := List.pairwise_cons.mp hs
      have hab : a.time_seconds < b.time_seconds := hcons.1 b (by simp)
      have h2 := ih (by simp) hcons.2
      rw [getLastD_cons_cons]
      simp only [List.headI] at h2 ⊢
      linarith

/-- Scanning the consecutive pairs of a strictly time-sorted waypoint
list for a bracket of an elapsed time at or beyond the final waypoint
time either finds nothing or produces exactly the final waypoint's
coordinates. -/
theorem findSome?_interpSegment_after_final (e : ℝ) (l : List Waypoint)
    (hs : l.Pairwise (fun x y => x.time_seconds < y.time_seconds))
    (hle : (l.getLastD default).time_seconds ≤ e) :
    (consecutivePairs l).findSome? (interpSegment e) = none ∨
    (consecutivePairs l).findSome? (interpSegment e) =
      some ((l.getLastD default).latitude, (l.getLastD default).longitude,
        (l.getLastD default).altitude_meters, e) := by
  induction l with
  | nil => exact Or.inl rfl
  | cons a tail ih =>
    cases tail with
    | nil => exact Or.inl rfl
    | cons b rest =>
      have hcons := List.pairwise_cons.mp hs
      have hab : a.time_seconds < b.time_seconds := hcons.1 b (by simp)
      have hs' : (b :: rest).Pairwise (fun x y => x.time_seconds < y.time_seconds) :=
        hcons.2
      rw [getLastD_cons_cons] at hle ⊢
      have hpairs : consecutivePairs (a :: b :: rest) =
          (a, b) :: consecutivePairs (b :: rest) := rfl
      rw [hpairs, List.findSome?_cons]
      by_cases hm : a.time_seconds ≤ e ∧ e ≤ b.time_seconds
      · have hble : b.time_seconds ≤ ((b :: rest).getLastD default).time_seconds := by
          have := headI_time_le_getLastD (b :: rest) (by simp) hs'
          simpa using this
        have he : e = b.time_seconds := le_antisymm hm.2 (le_trans hble hle)
        cases rest with
        | nil =>
          right
          have h1 : b.time_seconds - a.time_seconds > 0 := by linarith
          have hv : interpSegment e (a, b) =
              some (b.latitude, b.longitude, b.altitude_meters, e) := by
            unfold interpSegment
            rw [if_pos hm]
            simp only [if_pos h1]
            rw [he, div_self (ne_of_gt h1)]
            norm_num
          rw [hv]
          rfl
        | cons c rest2 =>
          exfalso
          have hbc : b.time_seconds < c.time_seconds :=
            (List.pairwise_cons.mp hs').1 c (by simp)
          have hcl : (c :: rest2).headI.time_seconds ≤
              ((c :: rest2).getLastD default).time_seconds :=
            headI_time_le_getLastD (c :: rest2) (by simp) (List.pairwise_cons.mp hs').2
          simp only [List.headI] at hcl
          rw [getLastD_cons_cons] at hle
          have := hm.2
          linarith
      · have hnone : interpSegment e (a, b) = none := by
          unfold interpSegment
          rw [if_neg hm]
        rw [hnone]
        exact ih hs' hle

/-- Past the final waypoint time but inside the authorization window,
interpolate_expected_position reports exactly the final waypoint. -/
theorem interpolate_after_final (plan : FlightPlan) (hne : plan.waypoints ≠ [])
    (hs : plan.waypoints.Pairwise (fun x y => x.time_seconds < y.time_seconds))
    (tt : ℝ)
    (h0 : ¬(tt - plan.start_time < 0))
    (hd : ¬(tt - plan.start_time > plan.end_time - plan.start_time))
    (hfin : (plan.waypoints.getLastD default).time_seconds ≤ tt - plan.start_time) :
    interpolate_expected_position plan tt =
      some ((plan.waypoints.getLastD default).latitude,
        (plan.waypoints.getLastD default).longitude,
        (plan.waypoints.getLastD default).altitude_meters,
        tt - plan.start_time) := by
  simp only [interpolate_expected_position]
  rw [if_neg h0, if_neg hd]
  rcases findSome?_interpSegment_after_final (tt - plan.start_time) plan.waypoints hs hfin
    with h | h <;> rw [h]

/-! ## Claims about the flight-health monitor -/

/-- C2 counterexample: a two-waypoint plan of duration 100 with fresh
telemetry whose elapsed time 105 lies inside the claimed 30-second
over-run window is nevertheless classified LOST (the interpolation
refuses any elapsed time beyond the plan duration). -/
theorem assess_overrun_lost_counterexample :
    ((0 : ℝ) ≤ 105 - 105 ∧ (105 : ℝ) - 105 ≤ 30
      ∧ (100 : ℝ) - 0 < 105 - 0 ∧ (105 : ℝ) - 0 ≤ (100 - 0) + 30)
    ∧ (assess_flight_health
        ⟨"F1", 0, 100, [⟨0, 0, 0, 0⟩, ⟨0, 1, 0, 100⟩], 1.0⟩
        ⟨"F1", 105, 0, 1, 0⟩ 105).status = FlightHealthStatus.LOST := by
  refine ⟨by norm_num, ?_⟩
  norm_num [assess_flight_health, interpolate_expected_position,
    MAX_TELEMETRY_AGE_SECONDS]

/-- C2 (amended): with fresh telemetry, any elapsed time inside the
over-run window (strictly past the plan duration, at most duration plus
the 30-second freshness threshold) is classified LOST, because the
interpolation step fails there; and for elapsed times at or past the
final waypoint time but still inside the plan duration, the expected
position is the final waypoint, and telemetry matching it with lag at
most the 10-second tolerance is classified ON_TRACK. -/
theorem assess_overrun_window :
    (∀ (plan : FlightPlan) (telemetry : TelemetryUpdate) (current_time : ℝ),
      0 ≤ current_time - telemetry.timestamp →
      current_time - telemetry.timestamp ≤ MAX_TELEMETRY_AGE_SECONDS →
      plan.end_time - plan.start_time < telemetry.timestamp - plan.start_time →
      telemetry.timestamp - plan.start_time ≤
        (plan.end_time - plan.start_time) + MAX_TELEMETRY_AGE_SECONDS →
      (assess_flight_health plan telemetry current_time).status = FlightHealthStatus.LOST)
    ∧ (∀ (plan : FlightPlan) (telemetry : TelemetryUpdate) (current_time : ℝ),
      plan.waypoints ≠ [] →
      plan.waypoints.Pairwise (fun x y => x.time_seconds < y.time_seconds) →
      0 ≤ current_time - telemetry.timestamp →
      current_time - telemetry.timestamp ≤ MAX_TIME_DELAY_SECONDS →
      0 ≤ telemetry.timestamp - plan.start_time →
      (plan.waypoints.getLastD default).time_seconds ≤
        telemetry.timestamp - plan.start_time →
      telemetry.timestamp - plan.start_time ≤ plan.end_time - plan.start_time →
      telemetry.latitude = (plan.waypoints.getLastD default).latitude →
      telemetry.longitude = (plan.waypoints.getLastD default).longitude →
      telemetry.altitude_meters = (plan.waypoints.getLastD default).altitude_meters →
      interpolate_expected_position plan telemetry.timestamp =
        some ((plan.waypoints.getLastD default).latitude,
          (plan.waypoints.getLastD default).longitude,
          (plan.waypoints.getLastD default).altitude_meters,
          telemetry.timestamp - plan.start_time)
      ∧ (assess_flight_health plan telemetry current_time).status =
          FlightHealthStatus.ON_TRACK) := by
  constructor
  · intro plan tel ct h1 h2 h3 h4
    have hna : ¬(ct - tel.timestamp > MAX_TELEMETRY_AGE_SECONDS) := not_lt.mpr h2
    have hnb : ¬(ct - tel.timestamp < 0) := not_lt.mpr h1
    simp only [assess_flight_health]
    rw [if_neg hna, if_neg hnb]
    by_cases h5 : tel.timestamp - plan.start_time < 0
    · rw [if_pos h5]
    · rw [if_neg h5]
      have h6 : ¬(tel.timestamp - plan.start_time >
          (plan.end_time - plan.start_time) + MAX_TELEMETRY_AGE_SECONDS) :=
        not_lt.mpr h4
      rw [if_neg h6]
      have h7 : interpolate_expected_position plan tel.timestamp = none := by
        simp only [interpolate_expected_position]
        rw [if_neg h5, if_pos h3]
      rw [h7]
  · intro plan tel ct hne hs h1 h2 h0 hfin hdur heq1 heq2 heq3
    have hinterp := interpolate_after_final plan hne hs tel.timestamp
      (not_lt.mpr h0) (not_lt.mpr hdur) hfin
    refine ⟨hinterp, ?_⟩
    have h2' : ct - tel.timestamp ≤ MAX_TELEMETRY_AGE_SECONDS := by
      refine le_trans h2 ?_
      norm_num [MAX_TIME_DELAY_SECONDS, MAX_TELEMETRY_AGE_SECONDS]
    have hna : ¬(ct - tel.timestamp > MAX_TELEMETRY_AGE_SECONDS) := not_lt.mpr h2'
    have hnb : ¬(ct - tel.timestamp < 0) := not_lt.mpr h1
    have h5 : ¬(tel.timestamp - plan.start_time < 0) := not_lt.mpr h0
    have h6 : ¬(tel.timestamp - plan.start_time >
        (plan.end_time - plan.start_time) + MAX_TELEMETRY_AGE_SECONDS) := by
      have h30 : (0 : ℝ) ≤ MAX_TELEMETRY_AGE_SECONDS := by
        norm_num [MAX_TELEMETRY_AGE_SECONDS]
      exact not_lt.mpr (by linarith)
    simp only [assess_flight_health]
    rw [if_neg hna, if_neg hnb, if_neg h5, if_neg h6, hinterp]
    have hpos : haversine_distance_meters tel.latitude tel.longitude
        (plan.waypoints.getLastD default).latitude
        (plan.waypoints.getLastD default).longitude = 0 := by
      rw [heq1, heq2]
      exact haversine_self _ _
    have halt : |tel.altitude_meters - (plan.waypoints.getLastD default).altitude_meters|
        = 0 := by
      rw [heq3, sub_self, abs_zero]
    have hc1 : ¬(haversine_distance_meters tel.latitude tel.longitude
        (plan.waypoints.getLastD default).latitude
        (plan.waypoints.getLastD default).longitude > MAX_POSITION_ERROR_METERS) := by
      rw [hpos]
      norm_num [MAX_POSITION_ERROR_METERS]
    have hc2 : ¬(|tel.altitude_meters -
        (plan.waypoints.getLastD default).altitude_meters| >
        MAX_ALTITUDE_ERROR_METERS) := by
      rw [halt]
      norm_num [MAX_ALTITUDE_ERROR_METERS]
    have hc3 : ¬((ct - plan.start_time) - (tel.timestamp - plan.start_time) >
        MAX_TIME_DELAY_SECONDS) := by
      have : (ct - plan.start_time) - (tel.timestamp - plan.start_time) =
          ct - tel.timestamp := by ring
      rw [this]
      exact not_lt.mpr h2
    simp only [hc1, hc2, hc3, if_false, ite_false, if_neg, not_false_iff]

/-- Witness for C2 (amended): the same two-waypoint plan of duration
100, once with elapsed time 110 (LOST) and once with telemetry sitting
exactly on the final waypoint at elapsed time 100 with a 5-second lag
(ON_TRACK). -/
theorem assess_overrun_window_witness :
    ((0 : ℝ) ≤ 110 - 110 ∧ (110 : ℝ) - 110 ≤ MAX_TELEMETRY_AGE_SECONDS
      ∧ (100 : ℝ) - 0 < 110 - 0
      ∧ (110 : ℝ) - 0 ≤ (100 - 0) + MAX_TELEMETRY_AGE_SECONDS
      ∧ (assess_flight_health
          ⟨"F1", 0, 100, [⟨0, 0, 0, 0⟩, ⟨0, 1, 0, 100⟩], 1.0⟩
          ⟨"F1", 110, 0, 1, 0⟩ 110).status = FlightHealthStatus.LOST)
    ∧ ((105 : ℝ) - 100 ≤ MAX_TIME_DELAY_SECONDS
      ∧ (assess_flight_health
          ⟨"F1", 0, 100, [⟨0, 0, 0, 0⟩, ⟨0, 1, 0, 100⟩], 1.0⟩
          ⟨"F1", 100, 0, 1, 0⟩ 105).status = FlightHealthStatus.ON_TRACK) := by
  constructor
  · refine ⟨by norm_num, by norm_num [MAX_TELEMETRY_AGE_SECONDS], by norm_num,
      by norm_num [MAX_TELEMETRY_AGE_SECONDS], ?_⟩
    exact assess_overrun_window.1
      ⟨"F1", 0, 100, [⟨0, 0, 0, 0⟩, ⟨0, 1, 0, 100⟩], 1.0⟩
      ⟨"F1", 110, 0, 1, 0⟩ 110 (by norm_num)
      (by norm_num [MAX_TELEMETRY_AGE_SECONDS]) (by norm_num)
      (by norm_num [MAX_TELEMETRY_AGE_SECONDS])
  · refine ⟨by norm_num [MAX_TIME_DELAY_SECONDS], ?_⟩
    exact (assess_overrun_window.2
      ⟨"F1", 0, 100, [⟨0, 0, 0, 0⟩, ⟨0, 1, 0, 100⟩], 1.0⟩
      ⟨"F1", 100, 0, 1, 0⟩ 105 (by simp)
      (by norm_num [List.pairwise_cons])
      (by norm_num) (by norm_num [MAX_TIME_DELAY_SECONDS]) (by norm_num)
      (by norm_num [List.getLastD]) (by norm_num)
      (by norm_num [List.getLastD]) (by norm_num [List.getLastD])
      (by norm_num [List.getLastD])).2

/-! ## Claims about the conflict checker -/

/-- C9: two flights whose time windows fully overlap (the existing flight
carries the same positive-length window) and whose nonempty waypoint
paths are identical are conflicting at threshold 40 for any distance
function vanishing on equal points (as the geodesic distance does); and
a new flight whose window overlaps no existing flight window is never
conflicting, whatever the paths and threshold. -/
theorem is_conflicting_pairwise :
    (∀ (dist : ℚ × ℚ → ℚ × ℚ → ℚ) (ns ne : ℚ) (p : List (ℚ × ℚ)),
      (∀ q, dist q q = 0) → ns < ne → p ≠ [] →
        is_conflicting dist p ns ne [⟨ns, ne, p⟩] 40 = true)
    ∧ (∀ (dist : ℚ × ℚ → ℚ × ℚ → ℚ) (p : List (ℚ × ℚ)) (ns ne : ℚ)
        (flights : List ExistingFlight) (threshold : ℚ),
        (∀ f ∈ flights, ¬(ns < f.end_time ∧ ne > f.start_time)) →
          is_conflicting dist p ns ne flights threshold = false) := by
  constructor
  · intro dist ns ne p hzero hlt hne
    match p with
    | q :: rest =>
      simp only [is_conflicting, List.any_cons, List.any_nil, Bool.or_false]
      have h0 : dist q q < 40 := by rw [hzero q]; norm_num
      simp [hlt, h0]
  · intro dist p ns ne flights threshold hnone
    simp only [is_conflicting, List.any_eq_false]
    intro f hf
    have := hnone f hf
    by_cases h1 : ns < f.end_time
    · have h2 : ¬ ne > f.start_time := fun h2 => this ⟨h1, h2⟩
      simp [h2]
    · simp [h1]

/-- Witness for C9: identical one-point paths over the same window
conflict; a disjoint window never conflicts. -/
theorem is_conflicting_pairwise_witness :
    ((0 : ℚ) < 1 ∧ ([((0 : ℚ), (0 : ℚ))] ≠ [])
      ∧ is_conflicting (fun _ _ => 0) [(0, 0)] 0 1 [⟨0, 1, [(0, 0)]⟩] 40 = true)
    ∧ (¬((0 : ℚ) < 0 ∧ (1 : ℚ) > 5)
      ∧ is_conflicting (fun _ _ => 0) [(0, 0)] 0 1 [⟨5, 0, [(0, 0)]⟩] 40 = false) := by
  refine ⟨⟨by norm_num, by simp, ?_⟩, ⟨by norm_num, ?_⟩⟩
  · exact is_conflicting_pairwise.1 (fun _ _ => 0) 0 1 [(0, 0)] (fun _ => rfl)
      (by norm_num) (by simp)
  · refine is_conflicting_pairwise.2 (fun _ _ => 0) [(0, 0)] 0 1 [⟨5, 0, [(0, 0)]⟩] 40 ?_
    intro f hf
    simp only [List.mem_singleton] at hf
    subst hf
    norm_num

end DATC
